import Mathlib

/-!
Shallow embedding of the real-time RAG vector stores and the disruption
scoring pipeline of the Supply-Chain-Distribution-Warning repository.

Sources embedded:
  * src/src/core/rag/pathway_vector_store.py  (PathwayVectorStore)
  * src/src/core/rag/vector_store.py          (SupplyChainVectorStore)
  * src/src/core/detectors/disruption_detector.py (DisruptionDetector)
  * src/src/core/detectors/ai_disruption_detector.py (AIDisruptionDetector)
  * src/src/core/processors/impact_assessor.py (ImpactAssessor)

Modelling conventions:
  * Python floats are modelled as rationals (exact arithmetic).
  * The external SentenceTransformer embedding provider is a parameter
    `Embed : String → Option Vec`; `none` models the exception path of
    `self.embedding_model.encode`, `some v` the already unit-normalized
    embedding (the code normalizes right after encoding; unit norm is a
    hypothesis where a claim needs it).
  * The external FAISS `IndexFlatIP` is modelled by an explicit list of
    vectors; `faissSearch` is modelled from the spec: exact inner-product
    top-k, sorted by descending score with ties broken by insertion order,
    and (per FAISS behaviour) result rows beyond the number of stored
    vectors padded with index -1 and the lowest representable score.
  * Python `list[idx]` with a possibly negative index is `pyGet`; a failed
    lookup (IndexError) propagates as `Option.none` to the enclosing
    `except` handler, which returns `[]`.
-/

namespace SupplyChainRAG

/-- Embedding vectors; dense float vectors become rational lists. -/
abbrev Vec := List ℚ

/-- Inner product, the similarity used by `faiss.IndexFlatIP`. -/
def inner (v w : Vec) : ℚ := (List.zipWith (· * ·) v w).sum

/-- Metadata maps are association lists of string keys/values. -/
abbrev Metadata := List (String × String)

/-- The external embedding provider (SentenceTransformer 'all-MiniLM-L6-v2'
followed by L2 normalization): `none` models an exception while encoding. -/
abbrev Embed := String → Option Vec

/-- One row of a search result: the dict
`{"document": ..., "metadata": ..., "score": ..., "rank": ...}` built by
both search methods (`real_time_freshness` is observability-only and
omitted). -/
structure SearchResult (μ : Type) where
  document : String
  metadata : μ
  score : ℚ
  rank : Nat
  deriving Repr, DecidableEq

/-- Python list indexing `l[i]`: non-negative indices are positional,
negative indices wrap from the end, anything else raises (here: `none`). -/
def pyGet (l : List α) (i : ℤ) : Option α :=
  let j : ℤ := if i < 0 then i + l.length else i
  if h : 0 ≤ j ∧ j.toNat < l.length then some (l.get ⟨j.toNat, h.2⟩) else none

/-- Score FAISS fills into result rows that exceed the number of stored
vectors: the lowest finite float32, -FLT_MAX = -(2^128 - 2^104), as an
exact rational. -/
def padScore : ℚ := mkRat (-340282346638528859811704183484516925440) 1

/-- Result ordering of the modelled FAISS search: strictly higher scores
first, ties broken by ascending stored index (= insertion order). -/
def faissLe (a b : ℚ × ℤ) : Prop := b.1 < a.1 ∨ (a.1 = b.1 ∧ a.2 ≤ b.2)

instance : DecidableRel faissLe := fun a b => by
  unfold faissLe; infer_instance

instance : IsTotal (ℚ × ℤ) faissLe where
  total a b := by
    unfold faissLe
    rcases lt_trichotomy a.1 b.1 with h | h | h
    · exact Or.inr (Or.inl h)
    · rcases le_total a.2 b.2 with h2 | h2
      · exact Or.inl (Or.inr ⟨h, h2⟩)
      · exact Or.inr (Or.inr ⟨h.symm, h2⟩)
    · exact Or.inl (Or.inl h)

instance : IsTrans (ℚ × ℤ) faissLe where
  trans a b c hab hbc := by
    unfold faissLe at *
    rcases hab with h1 | ⟨h1, h1'⟩ <;> rcases hbc with h2 | ⟨h2, h2'⟩
    · exact Or.inl (h2.trans h1)
    · exact Or.inl (h2 ▸ h1)
    · exact Or.inl (h1 ▸ h2)
    · exact Or.inr ⟨h1.trans h2, h1'.trans h2'⟩

/-- Scores of the query against every stored vector, tagged with the
stored index (`i` is the index of the first vector of `l`). -/
def scoreAll (q : Vec) : List Vec → Nat → List (ℚ × ℤ)
  | [], _ => []
  | v :: rest, i => (inner q v, (i : ℤ)) :: scoreAll q rest (i + 1)

/-- Modelled from the spec: FAISS `IndexFlatIP.search` returns the `k`
best rows as (score, index) pairs, "sorted by descending score, ties
broken by insertion order (earlier documents first)"; when `k` exceeds
the number of stored vectors the remaining rows are padding
`(padScore, -1)`. -/
def faissSearch (index : List Vec) (q : Vec) (k : Nat) : List (ℚ × ℤ) :=
  let top := (List.insertionSort faissLe (scoreAll q index 0)).take k
  top ++ List.replicate (k - top.length) (padScore, -1)

/-- The result-building loop shared by `SupplyChainVectorStore.search` and
`PathwayVectorStore.search_real_time`:
`for i, (score, idx) in enumerate(zip(scores[0], indices[0])):
   if score >= threshold and idx < len(self.documents): ...append(...)`.
A failing list access (IndexError) makes the whole loop fail (`none`),
which the caller's `except` turns into `[]`. -/
def buildResults (docs : List String) (metas : List μ) (threshold : ℚ) :
    List (ℚ × ℤ) → Nat → Option (List (SearchResult μ))
  | [], _ => some []
  | p :: rest, i =>
    if threshold ≤ p.1 ∧ p.2 < (docs.length : ℤ) then
      match pyGet docs p.2, pyGet metas p.2 with
      | some d, some m =>
        (buildResults docs metas threshold rest (i + 1)).map
          (fun tl => ⟨d, m, p.1, i + 1⟩ :: tl)
      | _, _ => none
    else buildResults docs metas threshold rest (i + 1)

/-! ### PathwayVectorStore (src/src/core/rag/pathway_vector_store.py) -/

/-- The metadata record stored by `add_document_streaming`:
`{**(metadata or {}), "added_at": ..., "update_id": self.update_counter,
"real_time": True}`. -/
structure StoredMeta where
  base : Metadata
  added_at : Nat
  update_id : Nat
  real_time : Bool
  deriving Repr, DecidableEq

/-- Mutable state of `PathwayVectorStore` (the FAISS index, parallel
document/metadata lists and the update counters; `latest_alerts` and the
lock are irrelevant to the embedded operations). -/
structure PathwayVectorStore where
  dimension : Nat
  index : List Vec
  documents : List String
  metadata : List StoredMeta
  update_counter : Nat
  last_update_time : Nat
  deriving Repr, DecidableEq

namespace PathwayVectorStore

/-- `add_document_streaming(text, metadata)`: embeds, normalizes, appends
vector + document + merged metadata, bumps the counters and returns
`len(documents) - 1`; any exception (embedding failure) is caught and the
sentinel `-1` is returned. `now` is the current clock reading used for
`added_at` / `last_update_time`. -/
def add_document_streaming (embed : Embed) (now : Nat)
    (s : PathwayVectorStore) (text : String) (meta : Option Metadata) :
    PathwayVectorStore × ℤ :=
  match embed text with
  | none => (s, -1)
  | some v =>
    ({ dimension := s.dimension
       index := s.index ++ [v]
       documents := s.documents ++ [text]
       metadata := s.metadata ++ [⟨meta.getD [], now, s.update_counter, true⟩]
       update_counter := s.update_counter + 1
       last_update_time := now },
     (s.documents.length : ℤ))

/-- `search_real_time(query, k, threshold)`: empty index returns `[]`,
query-embedding failure returns `[]`; otherwise FAISS is searched with
`min(k, ntotal)` rows and the rows are filtered/assembled by the shared
result loop. -/
def search_real_time (embed : Embed) (s : PathwayVectorStore)
    (query : String) (k : Nat) (threshold : ℚ) :
    List (SearchResult StoredMeta) :=
  if s.index.length = 0 then []
  else
    match embed query with
    | none => []
    | some q =>
      (buildResults s.documents s.metadata threshold
        (faissSearch s.index q (min k s.index.length)) 0).getD []

/-- `get_current_size`. -/
def get_current_size (s : PathwayVectorStore) : Nat := s.documents.length

/-- The fields of `get_real_time_stats` that describe the store itself
(the recent-updates/alerts counts are observability-only and omitted). -/
structure RealTimeStats where
  total_documents : Nat
  index_size : Nat
  dimension : Nat
  last_update : Nat
  update_counter : Nat
  deriving Repr, DecidableEq

/-- `get_real_time_stats`. -/
def get_real_time_stats (s : PathwayVectorStore) : RealTimeStats :=
  ⟨s.documents.length, s.index.length, s.dimension, s.last_update_time,
   s.update_counter⟩

/-- Consistency invariant of the store: the document list, metadata list
and FAISS index always have the same length. -/
def WF (s : PathwayVectorStore) : Prop :=
  s.documents.length = s.index.length ∧ s.metadata.length = s.index.length

instance : DecidablePred WF := fun s => by unfold WF; infer_instance

end PathwayVectorStore

/-! ### SupplyChainVectorStore (src/src/core/rag/vector_store.py) -/

/-- Mutable state of `SupplyChainVectorStore`. -/
structure SupplyChainVectorStore where
  dimension : Nat
  index : List Vec
  documents : List String
  metadata : List Metadata
  deriving Repr, DecidableEq

namespace SupplyChainVectorStore

/-- `add_document(text, metadata)`: embed, normalize, append vector,
document and `metadata or {}`; return `len(documents) - 1`, or `-1` upon
an (embedding) exception. -/
def add_document (embed : Embed) (s : SupplyChainVectorStore)
    (text : String) (meta : Option Metadata) : SupplyChainVectorStore × ℤ :=
  match embed text with
  | none => (s, -1)
  | some v =>
    ({ dimension := s.dimension
       index := s.index ++ [v]
       documents := s.documents ++ [text]
       metadata := s.metadata ++ [meta.getD []] },
     (s.documents.length : ℤ))

/-- `search(query, k, threshold)`: no empty-index guard and no capping of
`k`, otherwise the same loop as the pathway store; every exception path
returns `[]`. -/
def search (embed : Embed) (s : SupplyChainVectorStore)
    (query : String) (k : Nat) (threshold : ℚ) :
    List (SearchResult Metadata) :=
  match embed query with
  | none => []
  | some q =>
    (buildResults s.documents s.metadata threshold
      (faissSearch s.index q k) 0).getD []

/-- Consistency invariant: parallel lists share one length. -/
def WF (s : SupplyChainVectorStore) : Prop :=
  s.documents.length = s.index.length ∧ s.metadata.length = s.index.length

instance : DecidablePred WF := fun s => by unfold WF; infer_instance

end SupplyChainVectorStore

/-- Fold a sequence of insert calls through a store, collecting the
returned ids (used to state the monotonic-id contract for both stores). -/
def runAdds (step : σ → String × Option Metadata → σ × ℤ) :
    σ → List (String × Option Metadata) → σ × List ℤ
  | s, [] => (s, [])
  | s, op :: ops =>
    let r := step s op
    let rest := runAdds step r.1 ops
    (rest.1, r.2 :: rest.2)

/-- One `add_document_streaming` call as a step function on pathway
stores. -/
def pathwayStep (embed : Embed) (now : ℕ) :
    PathwayVectorStore → String × Option Metadata → PathwayVectorStore × ℤ :=
  fun s op => PathwayVectorStore.add_document_streaming embed now s op.1 op.2

/-- One `add_document` call as a step function on supply-chain stores. -/
def scStep (embed : Embed) :
    SupplyChainVectorStore → String × Option Metadata →
      SupplyChainVectorStore × ℤ :=
  fun s op => SupplyChainVectorStore.add_document embed s op.1 op.2

/-! ### Raw event records and shared string machinery -/

/-- Python substring test `needle in hay` (both already lower-cased by the
callers, as in the source). -/
def strContains (hay needle : String) : Bool :=
  hay.toList.tails.any (fun t => needle.toList.isPrefixOf t)

/-- A raw event record as consumed by the detectors: dict fields read with
`.get(..., default)`. Fields whose Python default is the empty string are
plain `String`s; fields whose default differs between call sites stay
`Option`-valued and are defaulted at each use site exactly as the code
does. -/
structure Record where
  source : String := ""
  title : String := ""
  description : String := ""
  location : String := ""
  event_type : String := ""
  severity : Option String := none
  magnitude : Option ℚ := none
  confidence_score : Option ℚ := none
  deriving Repr, DecidableEq

/-- `sum(1 for keyword in keywords if keyword in text)`. -/
def countMatches (text : String) (kws : List String) : Nat :=
  (kws.filter (fun k => strContains text k)).length

/-! ### DisruptionDetector (src/src/core/detectors/disruption_detector.py) -/

namespace DisruptionDetector

/-- `self.disruption_keywords["critical"]`. -/
def critical_keywords : List String :=
  ["shutdown", "closed", "suspended", "halted", "blocked", "collapsed"]

/-- `self.disruption_keywords["warning"]`. -/
def warning_keywords : List String :=
  ["delayed", "disrupted", "reduced", "limited", "restricted", "strike"]

/-- `self.disruption_keywords["watch"]`. -/
def watch_keywords : List String :=
  ["monitoring", "potential", "risk", "concern", "weather", "planned"]

/-- The `critical_locations` list of `_calculate_disruption_score`. -/
def critical_locations : List String :=
  ["suez canal", "panama canal", "strait of hormuz", "los angeles",
   "long beach", "shanghai", "singapore", "rotterdam", "hamburg", "new york"]

/-- `DisruptionDetector._calculate_disruption_score`: keyword-density
terms (0.3/0.2/0.1 per critical/warning/watch keyword), event-type
boosts, a critical-location boost, all multiplied by
`record.get("confidence_score", 0.5)` and clamped above by 1. -/
def q_calculate_disruption_score (r : Record) : ℚ :=
  let text := (r.title ++ " " ++ r.description).toLower
  let score : ℚ :=
    (countMatches text critical_keywords : ℚ) * 0.3 +
    (countMatches text warning_keywords : ℚ) * 0.2 +
    (countMatches text watch_keywords : ℚ) * 0.1
  let score := score +
    (if r.event_type = "earthquake" then
      (if (6 : ℚ) ≤ r.magnitude.getD 0 then 0.4
       else if (5 : ℚ) ≤ r.magnitude.getD 0 then 0.2 else 0)
     else if r.event_type = "weather" then
      (if r.severity.getD "" = "critical" then 0.3
       else if r.severity.getD "" = "warning" then 0.2 else 0)
     else 0)
  let score := score +
    (if critical_locations.any (fun loc => strContains r.location.toLower loc)
     then 0.2 else 0)
  let score := score * r.confidence_score.getD (1 / 2)
  min 1 score

end DisruptionDetector

/-! ### AIDisruptionDetector (src/src/core/detectors/ai_disruption_detector.py) -/

namespace AIDisruptionDetector

/-- The parsed (or default) JSON analysis produced by `_analyze_with_ai`;
absent keys are read with `.get(..., default)` at each use site. -/
structure AIAnalysis where
  disruption_type : Option String := none
  affected_sectors : List String := []
  geographic_scope : Option String := none
  urgency_level : Option String := none
  confidence_level : Option ℚ := none
  predicted_duration_days : Option ℚ := none
  impact_severity : Option String := none
  deriving Repr, DecidableEq

/-- An entry of `supply_chain_knowledge["critical_routes"]` (the textual
description and typical disruptions play no computational role and are
omitted). -/
structure RouteInfo where
  key_ports : List String
  impact_multiplier : ℚ
  daily_volume_teu : ℚ
  deriving Repr, DecidableEq

/-- An entry of `supply_chain_knowledge["sector_vulnerabilities"]` (the
`disruption_sensitivity` label plays no computational role). -/
structure SectorInfo where
  key_regions : List String
  recovery_time_days : ℚ
  dependency_score : ℚ
  deriving Repr, DecidableEq

/-- `supply_chain_knowledge["critical_routes"]`. -/
def critical_routes : List (String × RouteInfo) :=
  [("trans_pacific",
    ⟨["Shanghai", "Shenzhen", "Los Angeles", "Long Beach", "Seattle"],
     2.5, 50000⟩),
   ("asia_europe",
    ⟨["Shanghai", "Singapore", "Dubai", "Rotterdam", "Hamburg"],
     2.0, 35000⟩),
   ("intra_asia",
    ⟨["Singapore", "Hong Kong", "Busan", "Tokyo", "Manila"],
     1.5, 25000⟩)]

/-- `supply_chain_knowledge["sector_vulnerabilities"]`. -/
def sector_vulnerabilities : List (String × SectorInfo) :=
  [("electronics", ⟨["Taiwan", "South Korea", "China", "Japan"], 30, 0.9⟩),
   ("automotive", ⟨["Germany", "Japan", "Mexico", "China"], 21, 0.8⟩),
   ("pharmaceuticals", ⟨["India", "China", "Ireland", "Puerto Rico"], 45, 0.95⟩),
   ("agriculture", ⟨["Ukraine", "Brazil", "Argentina", "Australia"], 90, 0.7⟩)]

/-- `supply_chain_knowledge["disruption_patterns"]["weather_events"]` as
(name, severity_multiplier, duration_days). -/
def weather_events : List (String × ℚ × ℚ) :=
  [("hurricane", 2.0, 7), ("typhoon", 1.8, 5),
   ("flood", 1.5, 14), ("drought", 1.2, 60)]

/-- `self.critical_locations` with their importance scores (coordinates
and type strings play no computational role). -/
def critical_locations : List (String × ℚ) :=
  [("shanghai", 10), ("singapore", 9), ("rotterdam", 8), ("los_angeles", 8),
   ("shenzhen", 7), ("hamburg", 7), ("dubai", 6), ("hong_kong", 6),
   ("suez_canal", 10), ("panama_canal", 9)]

/-- The context bundle assembled by `_retrieve_relevant_context`. -/
structure Context where
  relevant_routes : List (String × RouteInfo) := []
  affected_sectors : List (String × SectorInfo) := []
  historical_patterns : List (String × ℚ × ℚ) := []
  location_importance : ℚ := 0
  deriving Repr, DecidableEq

/-- `AIDisruptionDetector._retrieve_relevant_context`: substring-match the
lower-cased event location against route ports, sector regions and the
critical-location table (first match wins for the importance score; `0`
when nothing matches), and attach the weather patterns for weather-like
event types. -/
def q_retrieve_relevant_context (r : Record) : Context :=
  let location := r.location.toLower
  { relevant_routes :=
      critical_routes.filter
        (fun rt => rt.2.key_ports.any (fun port => strContains location port.toLower))
    affected_sectors :=
      sector_vulnerabilities.filter
        (fun sec => sec.2.key_regions.any (fun reg => strContains location reg.toLower))
    historical_patterns :=
      if r.event_type ∈ ["weather", "storm", "hurricane", "typhoon"]
      then weather_events else []
    location_importance :=
      ((critical_locations.find? (fun c => strContains location c.1)).map
        (fun c => c.2)).getD 0 }

/-- Python `max(list)` on a nonempty list (0 on the empty list, which the
code never reaches because it guards with a truthiness test). -/
def listMax : List ℚ → ℚ
  | [] => 0
  | x :: xs => xs.foldl max x

/-- `severity_multipliers.get(severity, 0.5)`. -/
def severity_multiplier (s : String) : ℚ :=
  if s = "minor" then 0.2
  else if s = "moderate" then 0.5
  else if s = "major" then 0.8
  else if s = "severe" then 1
  else 0.5

/-- `scope_multipliers.get(scope, 0.4)`. -/
def scope_multiplier (s : String) : ℚ :=
  if s = "local" then 0.2
  else if s = "regional" then 0.4
  else if s = "national" then 0.6
  else if s = "international" then 0.8
  else if s = "global" then 1
  else 0.4

/-- `AIDisruptionDetector._calculate_ai_disruption_score` (the `record`
argument is accepted but unused, exactly as in the source). -/
def q_calculate_ai_disruption_score (_r : Record) (a : AIAnalysis)
    (ctx : Context) : ℚ :=
  let base : ℚ := 0
  let base := base + a.confidence_level.getD (1 / 2) * 0.3
  let base := base + severity_multiplier (a.impact_severity.getD "moderate") * 0.3
  let base := base + scope_multiplier (a.geographic_scope.getD "regional") * 0.2
  let base := base +
    (if 7 < ctx.location_importance then 0.2
     else if 5 < ctx.location_importance then 0.1
     else 0)
  let base := base +
    (if ctx.relevant_routes = [] then 0
     else (listMax (ctx.relevant_routes.map (fun rt => rt.2.impact_multiplier)) - 1) * 0.1)
  let base := base +
    (if ctx.affected_sectors = [] then 0
     else listMax (ctx.affected_sectors.map (fun sec => sec.2.dependency_score)) * 0.1)
  min 1 base

/-- The spec's severity → multiplier table
{minor: 0.2, moderate: 0.5, major: 0.8, severe: 1.0}, 0.5 otherwise. -/
def spec_severity_table (s : String) : ℚ :=
  if s = "minor" then 0.2
  else if s = "moderate" then 0.5
  else if s = "major" then 0.8
  else if s = "severe" then 1
  else 0.5

/-- The spec's scope table {local: 0.2, regional: 0.4, national: 0.6,
international: 0.8, global: 1.0}, 0.4 otherwise. -/
def spec_scope_table (s : String) : ℚ :=
  if s = "local" then 0.2
  else if s = "regional" then 0.4
  else if s = "national" then 0.6
  else if s = "international" then 0.8
  else if s = "global" then 1
  else 0.4

/-- The disruption-scorer formula exactly as the spec words it:
min(1, 0.3*confidence + 0.3*sev + 0.2*scope + locBonus + routeBonus +
sectorBonus). -/
def specDisruptionScoreFormula (a : AIAnalysis) (ctx : Context) : ℚ :=
  let conf := a.confidence_level.getD (1 / 2)
  let sev := spec_severity_table (a.impact_severity.getD "moderate")
  let scope := spec_scope_table (a.geographic_scope.getD "regional")
  let locBonus : ℚ :=
    if 7 < ctx.location_importance then 0.2
    else if 5 < ctx.location_importance then 0.1
    else 0
  let routeBonus : ℚ :=
    if ctx.relevant_routes = [] then 0
    else (listMax (ctx.relevant_routes.map (fun rt => rt.2.impact_multiplier)) - 1) * 0.1
  let sectorBonus : ℚ :=
    if ctx.affected_sectors = [] then 0
    else listMax (ctx.affected_sectors.map (fun sec => sec.2.dependency_score)) * 0.1
  min 1 (0.3 * conf + 0.3 * sev + 0.2 * scope + locBonus + routeBonus + sectorBonus)

end AIDisruptionDetector

/-! ### ImpactAssessor (src/src/core/processors/impact_assessor.py) -/

namespace ImpactAssessor

/-- `round(x)` for rationals: Python's float rounding idealized as
round-half-to-even on exact rationals. -/
def roundHalfEven (q : ℚ) : ℤ :=
  let n := ⌊q⌋
  let f := q - n
  if f < 1 / 2 then n
  else if 1 / 2 < f then n + 1
  else if n % 2 = 0 then n else n + 1

/-- `round(x, d)`. -/
def pyRound (q : ℚ) (d : Nat) : ℚ :=
  (roundHalfEven (q * 10 ^ d) : ℚ) / 10 ^ d

/-- A (detected) disruption dict as consumed by `assess_impact`; every
field is read with `.get(..., default)`, so all fields are optional. -/
structure Disruption where
  id : Option String := none
  source_data : Option Record := none
  disruption_score : Option ℚ := none
  disruption_type : Option String := none
  geographic_scope : Option String := none
  urgency_level : Option String := none
  deriving Repr, DecidableEq

/-- `self.trade_routes` as (name, daily_volume, locations). -/
def trade_routes : List (String × ℚ × List String) :=
  [("trans_pacific", 50,
    ["pacific", "asia", "china", "japan", "korea", "california", "seattle"]),
   ("trans_atlantic", 30,
    ["atlantic", "europe", "uk", "germany", "new york", "boston"]),
   ("asia_europe", 40,
    ["suez", "mediterranean", "middle east", "singapore", "rotterdam"]),
   ("panama_canal", 200,
    ["panama", "canal", "central america", "caribbean"]),
   ("suez_canal", 300,
    ["suez", "egypt", "red sea", "mediterranean"])]

/-- `urgency_multipliers.get(urgency, 1.0)`. -/
def urgency_multiplier (u : String) : ℚ :=
  if u = "immediate" then 1.3
  else if u = "high" then 1.2
  else if u = "medium" then 1
  else if u = "low" then 0.8
  else 1

/-- `ImpactAssessor._calculate_impact_score`: the disruption score scaled
by geographic scope (×1.3 when the scope names a trade route, ×1.1 for the
named macro-regions) and by urgency, clamped above by 1. -/
def q_calculate_impact_score (d : Disruption) : ℚ :=
  let base := d.disruption_score.getD (1 / 2)
  let scope := d.geographic_scope.getD "regional"
  let base :=
    if strContains scope "trade_route" then base * 1.3
    else if scope ∈ ["asia_pacific", "europe", "north_america"] then base * 1.1
    else base
  let base := base * urgency_multiplier (d.urgency_level.getD "low")
  min 1 base

/-- `duration_map.get(disruption_type, {}).get(severity, 3)`. -/
def durationLookup (ty sev : String) : ℚ :=
  if ty = "earthquake" then
    (if sev = "critical" then 14 else if sev = "warning" then 5
     else if sev = "watch" then 2 else 3)
  else if ty = "weather" then
    (if sev = "critical" then 7 else if sev = "warning" then 3
     else if sev = "watch" then 1 else 3)
  else if ty = "labor_disruption" then
    (if sev = "critical" then 21 else if sev = "warning" then 7
     else if sev = "watch" then 2 else 3)
  else if ty = "transportation_disruption" then
    (if sev = "critical" then 10 else if sev = "warning" then 3
     else if sev = "watch" then 1 else 3)
  else 3

/-- The `{"estimated_avg_days": ..., "confidence": ...}` dict. -/
structure DurationEstimate where
  estimated_avg_days : ℚ
  confidence : ℚ
  deriving Repr, DecidableEq

/-- `ImpactAssessor._estimate_duration`. -/
def q_estimate_duration (d : Disruption) : DurationEstimate :=
  let ty := d.disruption_type.getD "general_disruption"
  let sev := (d.source_data.getD {}).severity.getD "watch"
  { estimated_avg_days := durationLookup ty sev
    confidence :=
      if ty ∈ ["earthquake", "weather", "labor_disruption",
               "transportation_disruption"]
      then 0.7 else 0.4 }

/-- `ImpactAssessor._identify_affected_routes`: every route whose
location-keyword list has a member contained in the event's lower-cased
location. -/
def q_identify_affected_routes (d : Disruption) : List String :=
  let location := ((d.source_data.getD {}).location).toLower
  (trade_routes.filter
    (fun rt => rt.2.2.any (fun loc => strContains location loc))).map
    (fun rt => rt.1)

/-- The `financial_impact` dict. -/
structure FinancialImpact where
  daily_impact_usd_millions : ℚ
  weekly_impact_usd_millions : ℚ
  estimated_total_impact_usd_millions : ℚ
  affected_trade_volume_percent : ℚ
  deriving Repr, DecidableEq

/-- `ImpactAssessor._estimate_financial_impact`. -/
def q_estimate_financial_impact (impact_score : ℚ)
    (affected_routes : List String) (dur : DurationEstimate) :
    FinancialImpact :=
  let total_daily :=
    (affected_routes.filterMap
      (fun route =>
        (trade_routes.find? (fun rt => rt.1 = route)).map
          (fun rt => rt.2.1 * impact_score))).sum
  let total_daily :=
    if affected_routes = [] then 10 * impact_score else total_daily
  { daily_impact_usd_millions := pyRound total_daily 1
    weekly_impact_usd_millions := pyRound (total_daily * 7) 1
    estimated_total_impact_usd_millions :=
      pyRound (total_daily * dur.estimated_avg_days) 1
    affected_trade_volume_percent := pyRound (impact_score * 100) 1 }

/-- `ImpactAssessor._determine_severity_level`. -/
def q_determine_severity_level (impact_score : ℚ) : String :=
  if 0.8 ≤ impact_score then "critical"
  else if 0.6 ≤ impact_score then "high"
  else if 0.4 ≤ impact_score then "medium"
  else "low"

/-- `ImpactAssessor._generate_mitigation_strategies`: universal
high-impact actions when the score reaches 0.7, plus type-specific
actions; nothing otherwise. -/
def q_generate_mitigation_strategies (d : Disruption) (impact_score : ℚ) :
    List String :=
  let strategies :=
    if 0.7 ≤ impact_score then
      ["Activate emergency procurement protocols",
       "Contact backup suppliers immediately",
       "Consider expedited shipping for critical items",
       "Increase safety stock levels for affected routes"]
    else []
  let ty := d.disruption_type.getD ""
  strategies ++
    (if ty = "weather_event" then
      ["Monitor weather forecasts for route planning",
       "Consider alternative transportation modes",
       "Coordinate with logistics partners for rerouting"]
     else if ty = "natural_disaster" then
      ["Assess supplier facility damage",
       "Activate disaster recovery plans",
       "Consider temporary supplier alternatives"]
     else if ty = "transportation_disruption" then
      ["Explore alternative routes and carriers",
       "Negotiate priority handling with logistics providers",
       "Consider multimodal transportation options"]
     else [])

/-- The assessment dict assembled by `assess_impact` (minus the
`assessed_at` wall-clock timestamp). -/
structure ImpactAssessment where
  disruption_id : Option String
  impact_score : ℚ
  severity_level : String
  duration_estimate : DurationEstimate
  affected_routes : List String
  financial_impact : FinancialImpact
  mitigation_strategies : List String
  deriving Repr, DecidableEq

/-- `ImpactAssessor.assess_impact`: the reported `impact_score` is rounded
to 3 decimals while severity, financial impact and mitigation strategies
are derived from the unrounded score, exactly as in the source. -/
def assess_impact (d : Disruption) : ImpactAssessment :=
  let impact_score := q_calculate_impact_score d
  let duration := q_estimate_duration d
  let routes := q_identify_affected_routes d
  { disruption_id := d.id
    impact_score := pyRound impact_score 3
    severity_level := q_determine_severity_level impact_score
    duration_estimate := duration
    affected_routes := routes
    financial_impact := q_estimate_financial_impact impact_score routes duration
    mitigation_strategies := q_generate_mitigation_strategies d impact_score }

end ImpactAssessor

/-! ### Concrete instances used to witness the theorems -/

/-- A small concrete embedding provider: distinct texts map to distinct
standard unit vectors; the empty text fails to embed. -/
def cEmbed : Embed := fun t =>
  if t = "" then none
  else if t = "A" then some [1, 0, 0]
  else if t = "B" then some [0, 1, 0]
  else if t = "C" then some [0, 0, 1]
  else some [1, 0, 0]

/-- A two-document `SupplyChainVectorStore` holding "A" and "B". -/
def cStoreSC : SupplyChainVectorStore :=
  { dimension := 3
    index := [[1, 0, 0], [0, 1, 0]]
    documents := ["A", "B"]
    metadata := [[("type", "port_info")], []] }

/-- A two-document `PathwayVectorStore` holding "A" and "B". -/
def cStoreP : PathwayVectorStore :=
  { dimension := 3
    index := [[1, 0, 0], [0, 1, 0]]
    documents := ["A", "B"]
    metadata := [⟨[("type", "port_info")], 0, 0, true⟩, ⟨[], 0, 1, true⟩]
    update_counter := 2
    last_update_time := 0 }

/-- An empty `PathwayVectorStore`. -/
def cEmptyP : PathwayVectorStore :=
  { dimension := 3, index := [], documents := [], metadata := []
    update_counter := 0, last_update_time := 0 }

/-- An empty `SupplyChainVectorStore`. -/
def cEmptySC : SupplyChainVectorStore :=
  { dimension := 3, index := [], documents := [], metadata := [] }

/-- How one returned search row relates to the store it was drawn from:
its score is the one FAISS computed for the stored vector at index `p.2`,
and document/metadata are the parallel-list entries at that index
(`dm` is an arbitrary default for the metadata lookup). -/
def EntryFromStore (q : Vec) (docs : List String) (metas : List μ)
    (index : List Vec) (dm : μ) (r : SearchResult μ) (p : ℚ × ℤ) : Prop :=
  r.score = p.1 ∧ 0 ≤ p.2 ∧ p.2.toNat < docs.length ∧
  r.document = docs.getD p.2.toNat "" ∧
  r.metadata = metas.getD p.2.toNat dm ∧
  p.1 = inner q (index.getD p.2.toNat [])

/-! ## Lemma layer -/

attribute [local semireducible] Rat.ofScientific Rat.mul Rat.inv Rat.add Rat.sub

theorem pyGet_eq_getD (l : List α) (i : ℤ) (d : α) (h0 : 0 ≤ i)
    (h1 : i.toNat < l.length) : pyGet l i = some (l.getD i.toNat d) := by
  unfold pyGet
  have hneg : ¬ i < 0 := not_lt.mpr h0
  simp only [hneg, if_false]
  rw [dif_pos ⟨h0, h1⟩, List.getD_eq_getElem _ _ h1]
  rfl

theorem pyGet_nil (i : ℤ) : pyGet ([] : List α) i = none := by
  unfold pyGet
  rw [dif_neg]
  simp

theorem getD_concat (l : List α) (a d : α) : (l ++ [a]).getD l.length d = a := by
  rw [List.getD_append_right _ _ _ _ (le_refl _)]
  simp

theorem scoreAll_length (q : Vec) :
    ∀ (l : List Vec) (i : ℕ), (scoreAll q l i).length = l.length := by
  intro l
  induction l with
  | nil => intro i; rfl
  | cons v rest ih => intro i; simp [scoreAll, ih]

theorem mem_scoreAll {q : Vec} :
    ∀ {l : List Vec} {i : ℕ} {p : ℚ × ℤ}, p ∈ scoreAll q l i →
      ∃ j, j < l.length ∧ p.1 = inner q (l.getD j []) ∧ p.2 = ((i + j : ℕ) : ℤ) := by
  intro l
  induction l with
  | nil => intro i p h; simp [scoreAll] at h
  | cons v rest ih =>
    intro i p h
    simp only [scoreAll, List.mem_cons] at h
    rcases h with h | h
    · exact ⟨0, by simp, by simp [h], by simp [h]⟩
    · obtain ⟨j, hj, h1, h2⟩ := ih h
      refine ⟨j + 1, by simpa using hj, by simpa using h1, ?_⟩
      rw [h2]; congr 1; omega

theorem scoreAll_mem (q : Vec) :
    ∀ (l : List Vec) (i j : ℕ), j < l.length →
      (inner q (l.getD j []), ((i + j : ℕ) : ℤ)) ∈ scoreAll q l i := by
  intro l
  induction l with
  | nil => intro i j hj; simp at hj
  | cons v rest ih =>
    intro i j hj
    cases j with
    | zero => simp [scoreAll]
    | succ j' =>
      have := ih (i + 1) j' (by simpa using hj)
      simp only [scoreAll, List.mem_cons]
      right
      convert this using 2
      omega

theorem faissSearch_length (index : List Vec) (q : Vec) (k : ℕ) :
    (faissSearch index q k).length = k := by
  have h1 : ((List.insertionSort faissLe (scoreAll q index 0)).take k).length ≤ k := by
    simp [List.length_take]
  show (((List.insertionSort faissLe (scoreAll q index 0)).take k) ++
    List.replicate
      (k - ((List.insertionSort faissLe (scoreAll q index 0)).take k).length)
      (padScore, -1)).length = k
  simp only [List.length_append, List.length_replicate]
  omega

theorem faissSearch_top (index : List Vec) (q : Vec) (k : ℕ)
    (hk : k ≤ index.length) :
    faissSearch index q k =
      (List.insertionSort faissLe (scoreAll q index 0)).take k := by
  have hlen : (List.insertionSort faissLe (scoreAll q index 0)).length = index.length := by
    rw [(List.perm_insertionSort faissLe _).length_eq, scoreAll_length]
  have htk : ((List.insertionSort faissLe (scoreAll q index 0)).take k).length = k := by
    simp [List.length_take, hlen, hk]
  show (((List.insertionSort faissLe (scoreAll q index 0)).take k) ++
    List.replicate
      (k - ((List.insertionSort faissLe (scoreAll q index 0)).take k).length)
      (padScore, -1)) =
    (List.insertionSort faissLe (scoreAll q index 0)).take k
  rw [htk]
  simp

theorem mem_faissSearch {index : List Vec} {q : Vec} {k : ℕ} {p : ℚ × ℤ}
    (h : p ∈ faissSearch index q k) :
    p ∈ scoreAll q index 0 ∨ p = (padScore, -1) := by
  unfold faissSearch at h
  rcases List.mem_append.mp h with h | h
  · exact Or.inl ((List.perm_insertionSort faissLe _).mem_iff.mp
      (List.mem_of_mem_take h))
  · exact Or.inr (List.eq_of_mem_replicate h)

theorem buildResults_spec (docs : List String) (metas : List μ) (dm : μ)
    (t : ℚ) (hlen : docs.length = metas.length) :
    ∀ (pairs : List (ℚ × ℤ)) (i : ℕ),
      (∀ p ∈ pairs, t ≤ p.1 → 0 ≤ p.2 ∧ p.2.toNat < docs.length) →
      ∃ res, buildResults docs metas t pairs i = some res ∧
        List.Forall₂
          (fun (r : SearchResult μ) (p : ℚ × ℤ) =>
            r.score = p.1 ∧ 0 ≤ p.2 ∧ p.2.toNat < docs.length ∧
            r.document = docs.getD p.2.toNat "" ∧
            r.metadata = metas.getD p.2.toNat dm)
          res (pairs.filter (fun p => decide (t ≤ p.1 ∧ p.2 < (docs.length : ℤ)))) := by
  intro pairs
  induction pairs with
  | nil =>
    intro i _
    exact ⟨[], rfl, by simp [List.Forall₂]⟩
  | cons p rest ih =>
    intro i hok
    by_cases hc : t ≤ p.1 ∧ p.2 < (docs.length : ℤ)
    · obtain ⟨h0, hlt⟩ := hok p (List.mem_cons_self _ _) hc.1
      have hd := pyGet_eq_getD docs p.2 "" h0 hlt
      have hm := pyGet_eq_getD metas p.2 dm h0 (hlen ▸ hlt)
      obtain ⟨res, hres, hfa⟩ := ih (i + 1)
        (fun p' hp' ht' => hok p' (List.mem_cons_of_mem _ hp') ht')
      refine ⟨⟨docs.getD p.2.toNat "", metas.getD p.2.toNat dm, p.1, i + 1⟩ :: res,
        ?_, ?_⟩
      · simp only [buildResults, if_pos hc, hd, hm, hres, Option.map_some']
      · rw [List.filter_cons_of_pos (by simpa using hc)]
        exact List.Forall₂.cons ⟨rfl, h0, hlt, rfl, rfl⟩ hfa
    · obtain ⟨res, hres, hfa⟩ := ih (i + 1)
        (fun p' hp' ht' => hok p' (List.mem_cons_of_mem _ hp') ht')
      refine ⟨res, ?_, ?_⟩
      · simp only [buildResults, if_neg hc, hres]
      · rw [List.filter_cons_of_neg (by simpa using hc)]
        exact hfa

theorem forall₂_strengthen {R : α → β → Prop} {S : β → Prop} :
    ∀ {as : List α} {bs : List β}, List.Forall₂ R as bs → (∀ b ∈ bs, S b) →
      List.Forall₂ (fun a b => R a b ∧ S b) as bs := by
  intro as bs h
  induction h with
  | nil => intro; exact List.Forall₂.nil
  | cons h1 _ ih =>
    intro hs
    exact List.Forall₂.cons ⟨h1, hs _ (List.mem_cons_self _ _)⟩
      (ih fun b hb => hs b (List.mem_cons_of_mem _ hb))

theorem mem_faissSearch_bounds {index : List Vec} {q : Vec} {k : ℕ} {t : ℚ}
    (hpad : k ≤ index.length ∨ padScore < t) :
    ∀ p ∈ faissSearch index q k, t ≤ p.1 →
      0 ≤ p.2 ∧ p.2.toNat < index.length ∧
      p.1 = inner q (index.getD p.2.toNat []) := by
  intro p hp ht
  have hfromScore : p ∈ scoreAll q index 0 →
      0 ≤ p.2 ∧ p.2.toNat < index.length ∧
      p.1 = inner q (index.getD p.2.toNat []) := by
    intro hmem
    obtain ⟨j, hj, h1, h2⟩ := mem_scoreAll hmem
    have hz : p.2 = (j : ℤ) := by simpa using h2
    refine ⟨by omega, by omega, ?_⟩
    have hto : p.2.toNat = j := by omega
    rw [h1, hto]
  rcases hpad with hk | hlt
  · rw [faissSearch_top _ _ _ hk] at hp
    exact hfromScore ((List.perm_insertionSort faissLe _).mem_iff.mp
      (List.mem_of_mem_take hp))
  · rcases mem_faissSearch hp with h | h
    · exact hfromScore h
    · exfalso
      rw [h] at ht
      exact absurd (ht.trans_lt hlt) (lt_irrefl t)

theorem searchSpec (docs : List String) (metas : List μ) (dm : μ)
    (index : List Vec) (q : Vec) (k : ℕ) (t : ℚ)
    (hd : docs.length = index.length) (hm : metas.length = index.length)
    (hpad : k ≤ index.length ∨ padScore < t) :
    ∃ res,
      buildResults docs metas t (faissSearch index q k) 0 = some res ∧
      res.length ≤ k ∧
      ∃ sub, List.Sorted faissLe sub ∧
        List.Forall₂ (EntryFromStore q docs metas index dm) res sub ∧
        ∀ p ∈ sub, t ≤ p.1 := by
  have hbounds := @mem_faissSearch_bounds index q k t hpad
  obtain ⟨res, hres, hfa⟩ := buildResults_spec docs metas dm t
    (hd.trans hm.symm) (faissSearch index q k) 0
    (fun p hp ht => ⟨(hbounds p hp ht).1, hd ▸ (hbounds p hp ht).2.1⟩)
  set pred : ℚ × ℤ → Bool :=
    fun p => decide (t ≤ p.1 ∧ p.2 < (docs.length : ℤ)) with hpred
  set sub := (faissSearch index q k).filter pred with hsub
  have hsubmem : ∀ p ∈ sub, p ∈ faissSearch index q k ∧ t ≤ p.1 := by
    intro p hp
    obtain ⟨h1, h2⟩ := List.mem_filter.mp hp
    exact ⟨h1, (of_decide_eq_true h2).1⟩
  have hsubt : ∀ p ∈ sub, t ≤ p.1 := fun p hp => (hsubmem p hp).2
  have hsubeq : sub =
      ((List.insertionSort faissLe (scoreAll q index 0)).take k).filter pred := by
    rcases hpad with hk | hlt
    · rw [hsub, faissSearch_top _ _ _ hk]
    · have hsplit : faissSearch index q k =
          ((List.insertionSort faissLe (scoreAll q index 0)).take k) ++
          List.replicate
            (k - ((List.insertionSort faissLe (scoreAll q index 0)).take k).length)
            (padScore, -1) := rfl
      have hpads : (List.replicate
          (k - ((List.insertionSort faissLe (scoreAll q index 0)).take k).length)
          ((padScore : ℚ), (-1 : ℤ))).filter pred = [] := by
        apply List.filter_eq_nil_iff.mpr
        intro a ha
        have ha' := List.eq_of_mem_replicate ha
        subst ha'
        simp only [hpred, decide_eq_true_eq]
        intro hdec
        exact absurd (hdec.1.trans_lt hlt) (lt_irrefl t)
      rw [hsub, hsplit, List.filter_append, hpads, List.append_nil]
  have hsl : List.Sublist sub (List.insertionSort faissLe (scoreAll q index 0)) := by
    rw [hsubeq]
    exact (List.filter_sublist _).trans (List.take_sublist _ _)
  refine ⟨res, hres, ?_, sub, ?_, ?_, hsubt⟩
  · calc res.length = sub.length := hfa.length_eq
    _ ≤ (faissSearch index q k).length := List.length_filter_le _ _
    _ = k := faissSearch_length index q k
  · exact List.Pairwise.sublist hsl (List.sorted_insertionSort faissLe _)
  · have hS : ∀ p ∈ sub, p.1 = inner q (index.getD p.2.toNat []) :=
      fun p hp => (hbounds p (hsubmem p hp).1 (hsubmem p hp).2).2.2
    exact List.Forall₂.imp
      (fun a b h => ⟨h.1.1, h.1.2.1, h.1.2.2.1, h.1.2.2.2.1, h.1.2.2.2.2, h.2⟩)
      (forall₂_strengthen hfa hS)

theorem clamp01_bounds {x : ℚ} (hx : 0 ≤ x) : 0 ≤ min 1 x ∧ min 1 x ≤ 1 :=
  ⟨le_min (by norm_num) hx, min_le_left _ _⟩

theorem buildResults_pads_nil_docs (metas : List μ) (t : ℚ) :
    ∀ (m i : ℕ),
      (buildResults ([] : List String) metas t
        (List.replicate m (padScore, -1)) i).getD [] = [] := by
  intro m
  induction m with
  | zero => intro i; rfl
  | succ m ih =>
    intro i
    by_cases hc : t ≤ padScore ∧ (-1 : ℤ) < (([] : List String).length : ℤ)
    · simp only [List.replicate_succ, buildResults, if_pos hc, pyGet_nil]
      rfl
    · simp only [List.replicate_succ, buildResults, if_neg hc]
      exact ih (i + 1)

/-! ## Claim theorems -/

/-- C3: `add_document_streaming` is atomic: the failure sentinel `-1` is
returned exactly when embedding fails, a failing call leaves the entire
store (documents, metadata, index, `update_counter`, `last_update_time`)
unchanged, a successful call grows the document list by one, and the
store invariant `len(documents) = len(metadata) = index.ntotal` (the one
`get_real_time_stats` reports as `total_documents`/`index_size`) is
preserved by every call. -/
theorem C3_insert_atomicity (embed : Embed) (now : ℕ)
    (s : PathwayVectorStore) (text : String) (meta : Option Metadata) :
    ((PathwayVectorStore.add_document_streaming embed now s text meta).2 = -1 ↔
      embed text = none) ∧
    ((PathwayVectorStore.add_document_streaming embed now s text meta).2 = -1 →
      (PathwayVectorStore.add_document_streaming embed now s text meta).1 = s) ∧
    ((PathwayVectorStore.add_document_streaming embed now s text meta).2 ≠ -1 →
      (PathwayVectorStore.add_document_streaming embed now s text meta).1.documents.length
        = s.documents.length + 1) ∧
    (PathwayVectorStore.WF s →
      PathwayVectorStore.WF
        (PathwayVectorStore.add_document_streaming embed now s text meta).1) ∧
    (PathwayVectorStore.WF s →
      (PathwayVectorStore.get_real_time_stats
        (PathwayVectorStore.add_document_streaming embed now s text meta).1).total_documents =
      (PathwayVectorStore.get_real_time_stats
        (PathwayVectorStore.add_document_streaming embed now s text meta).1).index_size) := by
  cases h : embed text with
  | none =>
    refine ⟨by simp [PathwayVectorStore.add_document_streaming, h], ?_, ?_, ?_, ?_⟩ <;>
      simp [PathwayVectorStore.add_document_streaming, h,
        PathwayVectorStore.WF, PathwayVectorStore.get_real_time_stats] <;>
      intro h1 _ <;> exact h1
  | some v =>
    have hne : ((s.documents.length : ℤ)) ≠ -1 := by omega
    refine ⟨?_, ?_, ?_, ?_, ?_⟩ <;>
      simp [PathwayVectorStore.add_document_streaming, h,
        PathwayVectorStore.WF, PathwayVectorStore.get_real_time_stats, hne] <;>
      omega

/-- C3 witness: a successful insert on the concrete store preserves the
invariant. -/
theorem C3_insert_atomicity_witness :
    PathwayVectorStore.WF
      ((PathwayVectorStore.add_document_streaming cEmbed 5 cStoreP "C" none).1) :=
  (C3_insert_atomicity cEmbed 5 cStoreP "C" none).2.2.2.1 (by decide)

/-- C7: search never raises: on a store with zero documents both search
methods return the empty list, and when embedding the query fails both
return the empty list instead of propagating the failure. -/
theorem C7_search_never_raises (embed : Embed) (sp : PathwayVectorStore)
    (ssc : SupplyChainVectorStore) (query : String) (k : ℕ) (t : ℚ) :
    (sp.index = [] →
      PathwayVectorStore.search_real_time embed sp query k t = []) ∧
    (embed query = none →
      PathwayVectorStore.search_real_time embed sp query k t = []) ∧
    (ssc.documents = [] → ssc.index = [] →
      SupplyChainVectorStore.search embed ssc query k t = []) ∧
    (embed query = none →
      SupplyChainVectorStore.search embed ssc query k t = []) := by
  refine ⟨?_, ?_, ?_, ?_⟩
  · intro h
    simp [PathwayVectorStore.search_real_time, h]
  · intro h
    unfold PathwayVectorStore.search_real_time
    rw [h]
    simp
  · intro hdocs hidx
    unfold SupplyChainVectorStore.search
    cases hq : embed query with
    | none => rfl
    | some q =>
      have hfs : faissSearch ssc.index q k = List.replicate k (padScore, -1) := by
        rw [hidx]
        show (((List.insertionSort faissLe (scoreAll q [] 0)).take k) ++
          List.replicate
            (k - ((List.insertionSort faissLe (scoreAll q [] 0)).take k).length)
            (padScore, -1)) = _
        simp [scoreAll]
      show (buildResults ssc.documents ssc.metadata t
        (faissSearch ssc.index q k) 0).getD [] = []
      rw [hfs, hdocs]
      exact buildResults_pads_nil_docs ssc.metadata t k 0
  · intro h
    unfold SupplyChainVectorStore.search
    rw [h]

/-- C7 witness: concrete empty stores and a failing query embedding. -/
theorem C7_search_never_raises_witness :
    PathwayVectorStore.search_real_time cEmbed cEmptyP "A" 5 0.3 = [] ∧
    SupplyChainVectorStore.search cEmbed cEmptySC "A" 5 0.5 = [] ∧
    PathwayVectorStore.search_real_time cEmbed cStoreP "" 5 0.3 = [] ∧
    SupplyChainVectorStore.search cEmbed cStoreSC "" 5 0.5 = [] :=
  ⟨(C7_search_never_raises cEmbed cEmptyP cEmptySC "A" 5 0.3).1 rfl,
   (C7_search_never_raises cEmbed cEmptyP cEmptySC "A" 5 0.5).2.2.1 rfl rfl,
   (C7_search_never_raises cEmbed cStoreP cStoreSC "" 5 0.3).2.1 rfl,
   (C7_search_never_raises cEmbed cStoreP cStoreSC "" 5 0.5).2.2.2 rfl⟩

/-- C5: the AI-path disruption score equals the spec's closed formula
min(1, 0.3·confidence + 0.3·sev + 0.2·scope + locBonus + routeBonus +
sectorBonus), for every record, analysis and context bundle. -/
theorem C5_disruption_scorer_formula (r : Record)
    (a : AIDisruptionDetector.AIAnalysis) (ctx : AIDisruptionDetector.Context) :
    AIDisruptionDetector.q_calculate_ai_disruption_score r a ctx =
    AIDisruptionDetector.specDisruptionScoreFormula a ctx := by
  simp only [AIDisruptionDetector.q_calculate_ai_disruption_score,
    AIDisruptionDetector.specDisruptionScoreFormula]
  rw [show AIDisruptionDetector.spec_severity_table =
        AIDisruptionDetector.severity_multiplier from rfl,
      show AIDisruptionDetector.spec_scope_table =
        AIDisruptionDetector.scope_multiplier from rfl]
  congr 1
  ring

theorem severity_multiplier_nonneg (s : String) :
    0 ≤ AIDisruptionDetector.severity_multiplier s := by
  unfold AIDisruptionDetector.severity_multiplier
  split_ifs <;> norm_num

theorem scope_multiplier_nonneg (s : String) :
    0 ≤ AIDisruptionDetector.scope_multiplier s := by
  unfold AIDisruptionDetector.scope_multiplier
  split_ifs <;> norm_num

theorem urgency_multiplier_pos (u : String) :
    0 < ImpactAssessor.urgency_multiplier u := by
  unfold ImpactAssessor.urgency_multiplier
  split_ifs <;> norm_num

theorem critical_routes_mult_ge_one :
    ∀ y ∈ AIDisruptionDetector.critical_routes, (1 : ℚ) ≤ y.2.impact_multiplier := by
  decide

theorem sector_dep_nonneg :
    ∀ y ∈ AIDisruptionDetector.sector_vulnerabilities,
      (0 : ℚ) ≤ y.2.dependency_score := by
  decide

theorem le_listMax_of_forall {c : ℚ} :
    ∀ (x : ℚ) (xs : List ℚ), c ≤ x → (∀ y ∈ xs, c ≤ y) →
      c ≤ AIDisruptionDetector.listMax (x :: xs) := by
  intro x xs
  induction xs generalizing x with
  | nil => intro hx _; simpa [AIDisruptionDetector.listMax] using hx
  | cons y ys ih =>
    intro hx hys
    have := ih (max x y) (hx.trans (le_max_left x y))
      (fun z hz => hys z (List.mem_cons_of_mem _ hz))
    simpa [AIDisruptionDetector.listMax] using this

theorem route_bonus_nonneg (r : Record) :
    0 ≤ (if (AIDisruptionDetector.q_retrieve_relevant_context r).relevant_routes = []
         then (0 : ℚ)
         else (AIDisruptionDetector.listMax
            ((AIDisruptionDetector.q_retrieve_relevant_context r).relevant_routes.map
              (fun rt => rt.2.impact_multiplier)) - 1) * 0.1) := by
  by_cases hr : (AIDisruptionDetector.q_retrieve_relevant_context r).relevant_routes = []
  · rw [if_pos hr]
  · rw [if_neg hr]
    have hsub : ∀ y ∈ (AIDisruptionDetector.q_retrieve_relevant_context r).relevant_routes,
        y ∈ AIDisruptionDetector.critical_routes := by
      intro y hy
      simp only [AIDisruptionDetector.q_retrieve_relevant_context] at hy
      exact List.mem_of_mem_filter hy
    obtain ⟨x, xs, hxx⟩ := List.exists_cons_of_ne_nil hr
    rw [hxx]
    have hmax : (1 : ℚ) ≤ AIDisruptionDetector.listMax
        ((x :: xs).map (fun rt => rt.2.impact_multiplier)) := by
      rw [List.map_cons]
      apply le_listMax_of_forall
      · exact critical_routes_mult_ge_one x (hsub x (hxx ▸ List.mem_cons_self _ _))
      · intro z hz
        obtain ⟨y, hy, hyz⟩ := List.mem_map.mp hz
        exact hyz ▸ critical_routes_mult_ge_one y
          (hsub y (hxx ▸ List.mem_cons_of_mem _ hy))
    have : (0 : ℚ) ≤ AIDisruptionDetector.listMax
        ((x :: xs).map (fun rt => rt.2.impact_multiplier)) - 1 := by linarith
    nlinarith

theorem sector_bonus_nonneg (r : Record) :
    0 ≤ (if (AIDisruptionDetector.q_retrieve_relevant_context r).affected_sectors = []
         then (0 : ℚ)
         else AIDisruptionDetector.listMax
            ((AIDisruptionDetector.q_retrieve_relevant_context r).affected_sectors.map
              (fun sec => sec.2.dependency_score)) * 0.1) := by
  by_cases hr : (AIDisruptionDetector.q_retrieve_relevant_context r).affected_sectors = []
  · rw [if_pos hr]
  · rw [if_neg hr]
    have hsub : ∀ y ∈ (AIDisruptionDetector.q_retrieve_relevant_context r).affected_sectors,
        y ∈ AIDisruptionDetector.sector_vulnerabilities := by
      intro y hy
      simp only [AIDisruptionDetector.q_retrieve_relevant_context] at hy
      exact List.mem_of_mem_filter hy
    obtain ⟨x, xs, hxx⟩ := List.exists_cons_of_ne_nil hr
    rw [hxx]
    have hmax : (0 : ℚ) ≤ AIDisruptionDetector.listMax
        ((x :: xs).map (fun sec => sec.2.dependency_score)) := by
      rw [List.map_cons]
      apply le_listMax_of_forall
      · exact sector_dep_nonneg x (hsub x (hxx ▸ List.mem_cons_self _ _))
      · intro z hz
        obtain ⟨y, hy, hyz⟩ := List.mem_map.mp hz
        exact hyz ▸ sector_dep_nonneg y
          (hsub y (hxx ▸ List.mem_cons_of_mem _ hy))
    nlinarith

theorem heuristic_score_bounds (r : Record)
    (hc : 0 ≤ r.confidence_score.getD (1 / 2)) :
    0 ≤ DisruptionDetector.q_calculate_disruption_score r ∧
    DisruptionDetector.q_calculate_disruption_score r ≤ 1 := by
  simp only [DisruptionDetector.q_calculate_disruption_score]
  refine clamp01_bounds (mul_nonneg (add_nonneg (add_nonneg ?_ ?_) ?_) hc)
  · positivity
  · split_ifs <;> norm_num
  · split_ifs <;> norm_num

theorem ai_score_bounds (r : Record) (a : AIDisruptionDetector.AIAnalysis)
    (ha : 0 ≤ a.confidence_level.getD (1 / 2)) :
    0 ≤ AIDisruptionDetector.q_calculate_ai_disruption_score r a
          (AIDisruptionDetector.q_retrieve_relevant_context r) ∧
    AIDisruptionDetector.q_calculate_ai_disruption_score r a
      (AIDisruptionDetector.q_retrieve_relevant_context r) ≤ 1 := by
  have hroute := route_bonus_nonneg r
  have hsector := sector_bonus_nonneg r
  simp only [AIDisruptionDetector.q_calculate_ai_disruption_score]
  refine clamp01_bounds
    (add_nonneg (add_nonneg (add_nonneg (add_nonneg (add_nonneg ?_ ?_) ?_) ?_)
      hroute) hsector)
  · exact add_nonneg (le_refl 0) (mul_nonneg ha (by norm_num))
  · exact mul_nonneg (severity_multiplier_nonneg _) (by norm_num)
  · exact mul_nonneg (scope_multiplier_nonneg _) (by norm_num)
  · split_ifs <;> norm_num

theorem impact_score_bounds (d : ImpactAssessor.Disruption)
    (hd : 0 ≤ d.disruption_score.getD (1 / 2)) :
    0 ≤ ImpactAssessor.q_calculate_impact_score d ∧
    ImpactAssessor.q_calculate_impact_score d ≤ 1 := by
  simp only [ImpactAssessor.q_calculate_impact_score]
  refine clamp01_bounds (mul_nonneg ?_ (urgency_multiplier_pos _).le)
  split_ifs <;> nlinarith [hd]

/-- C4 counterexample: the heuristic disruption score is not bounded
below by 0 for every input record: a record whose text matches the
critical keyword "shutdown" but whose `confidence_score` field is -1
yields the score -0.3, because only the upper bound is clamped. -/
theorem C4_score_boundedness_counterexample :
    DisruptionDetector.q_calculate_disruption_score
      { title := "shutdown", confidence_score := some (-1) } < 0 := by
  with_unfolding_all decide

/-- C4 (amended): the three scores lie in [0, 1] provided the
confidence-like input fields are nonnegative — `confidence_score` of the
raw record, `confidence_level` of the AI analysis, `disruption_score` of
the disruption — with the AI-path context bundle computed by
`_retrieve_relevant_context` (as in the detection pipeline). -/
theorem C4_score_boundedness_amended (r : Record)
    (a : AIDisruptionDetector.AIAnalysis) (d : ImpactAssessor.Disruption)
    (hc : 0 ≤ r.confidence_score.getD (1 / 2))
    (ha : 0 ≤ a.confidence_level.getD (1 / 2))
    (hd : 0 ≤ d.disruption_score.getD (1 / 2)) :
    (0 ≤ DisruptionDetector.q_calculate_disruption_score r ∧
      DisruptionDetector.q_calculate_disruption_score r ≤ 1) ∧
    (0 ≤ AIDisruptionDetector.q_calculate_ai_disruption_score r a
        (AIDisruptionDetector.q_retrieve_relevant_context r) ∧
      AIDisruptionDetector.q_calculate_ai_disruption_score r a
        (AIDisruptionDetector.q_retrieve_relevant_context r) ≤ 1) ∧
    (0 ≤ ImpactAssessor.q_calculate_impact_score d ∧
      ImpactAssessor.q_calculate_impact_score d ≤ 1) :=
  ⟨heuristic_score_bounds r hc, ai_score_bounds r a ha, impact_score_bounds d hd⟩

/-- C4 witness: concrete records with default (absent) confidence fields
satisfy all three bounds. -/
theorem C4_score_boundedness_witness :
    (0 ≤ DisruptionDetector.q_calculate_disruption_score
        { title := "port shutdown", location := "shanghai" } ∧
      DisruptionDetector.q_calculate_disruption_score
        { title := "port shutdown", location := "shanghai" } ≤ 1) ∧
    (0 ≤ AIDisruptionDetector.q_calculate_ai_disruption_score
        { title := "port shutdown", location := "shanghai" } {}
        (AIDisruptionDetector.q_retrieve_relevant_context
          { title := "port shutdown", location := "shanghai" }) ∧
      AIDisruptionDetector.q_calculate_ai_disruption_score
        { title := "port shutdown", location := "shanghai" } {}
        (AIDisruptionDetector.q_retrieve_relevant_context
          { title := "port shutdown", location := "shanghai" }) ≤ 1) ∧
    (0 ≤ ImpactAssessor.q_calculate_impact_score
        { disruption_score := some 0.9 } ∧
      ImpactAssessor.q_calculate_impact_score
        { disruption_score := some 0.9 } ≤ 1) :=
  C4_score_boundedness_amended
    { title := "port shutdown", location := "shanghai" } {}
    { disruption_score := some 0.9 }
    (by decide) (by decide)
    (by decide)

/-- C8 counterexample: an impact score below 0.7 together with a
disruption type outside {weather_event, natural_disaster,
transportation_disruption} yields an empty mitigation-strategy list
(here: score 0.3·0.8 = 0.24 and type "general_disruption"). -/
theorem C8_mitigation_counterexample :
    (ImpactAssessor.assess_impact
      { disruption_score := some 0.3, geographic_scope := some "regional",
        urgency_level := some "low",
        disruption_type := some "general_disruption" }).mitigation_strategies
      = [] := by
  decide

/-- C8 (amended): the assessment's mitigation-strategy list is nonempty
whenever the (unrounded) impact score reaches 0.7 or the disruption type
is one of weather_event / natural_disaster / transportation_disruption;
otherwise the code returns the empty list. -/
theorem C8_mitigation_amended (d : ImpactAssessor.Disruption)
    (h : 0.7 ≤ ImpactAssessor.q_calculate_impact_score d ∨
      d.disruption_type.getD "" ∈
        ["weather_event", "natural_disaster", "transportation_disruption"]) :
    (ImpactAssessor.assess_impact d).mitigation_strategies ≠ [] := by
  simp only [ImpactAssessor.assess_impact,
    ImpactAssessor.q_generate_mitigation_strategies]
  rcases h with h | h
  · rw [if_pos h]
    simp
  · simp only [List.mem_cons, List.not_mem_nil, or_false] at h
    rcases h with h | h | h <;> rw [h] <;> split_ifs <;> simp_all

/-- C8 witness: a low-impact weather event still yields at least one
strategy. -/
theorem C8_mitigation_witness :
    (ImpactAssessor.assess_impact
      { disruption_score := some 0.2,
        disruption_type := some "weather_event" }).mitigation_strategies ≠ [] :=
  C8_mitigation_amended _ (Or.inr (by decide))

/-- C9 counterexample: the Scenario-C record as literally specified (no
source_data/location) gets an empty affected_routes list, because route
identification reads `source_data.location`, not `geographic_scope`. -/
theorem C9_scenario_c_counterexample :
    "suez_canal" ∉ (ImpactAssessor.assess_impact
      { disruption_score := some 0.8,
        geographic_scope := some "trade_route_suez_canal",
        urgency_level := some "immediate" }).affected_routes := by
  with_unfolding_all decide

/-- C9 (amended): Scenario C holds once the event's `source_data.location`
mentions the canal (any location whose lower-casing contains "suez"):
impact score above 0.8 (it is exactly 1 after rounding), severity
"critical", and "suez_canal" among the affected routes. -/
theorem C9_scenario_c_amended (d : ImpactAssessor.Disruption) (rec : Record)
    (h1 : d.disruption_score = some 0.8)
    (h2 : d.geographic_scope = some "trade_route_suez_canal")
    (h3 : d.urgency_level = some "immediate")
    (h4 : d.source_data = some rec)
    (h5 : strContains rec.location.toLower "suez" = true) :
    0.8 < (ImpactAssessor.assess_impact d).impact_score ∧
    (ImpactAssessor.assess_impact d).severity_level = "critical" ∧
    "suez_canal" ∈ (ImpactAssessor.assess_impact d).affected_routes := by
  have hcond : strContains "trade_route_suez_canal" "trade_route" = true := by
    decide
  have himp : ImpactAssessor.q_calculate_impact_score d = 1 := by
    simp only [ImpactAssessor.q_calculate_impact_score, h1, h2, h3,
      Option.getD_some]
    rw [if_pos hcond]
    simp only [ImpactAssessor.urgency_multiplier, if_pos rfl]
    rw [min_eq_left (by norm_num)]
  refine ⟨?_, ?_, ?_⟩
  · simp only [ImpactAssessor.assess_impact, himp]
    have hr : ImpactAssessor.pyRound 1 3 = 1 := by
      decide
    rw [hr]
    norm_num
  · simp only [ImpactAssessor.assess_impact, himp,
      ImpactAssessor.q_determine_severity_level]
    rw [if_pos (by norm_num)]
  · simp only [ImpactAssessor.assess_impact,
      ImpactAssessor.q_identify_affected_routes, h4, Option.getD_some]
    refine List.mem_map.mpr
      ⟨("suez_canal", 300, ["suez", "egypt", "red sea", "mediterranean"]),
       List.mem_filter.mpr ⟨by simp [ImpactAssessor.trade_routes], ?_⟩, rfl⟩
    simp [h5]

/-- C9 witness: the concrete Scenario-C disruption with location
"Suez Canal, Egypt". -/
theorem C9_scenario_c_witness :
    0.8 < (ImpactAssessor.assess_impact
      { disruption_score := some 0.8,
        geographic_scope := some "trade_route_suez_canal",
        urgency_level := some "immediate",
        source_data := some { location := "Suez Canal, Egypt" } }).impact_score ∧
    (ImpactAssessor.assess_impact
      { disruption_score := some 0.8,
        geographic_scope := some "trade_route_suez_canal",
        urgency_level := some "immediate",
        source_data := some { location := "Suez Canal, Egypt" } }).severity_level
      = "critical" ∧
    "suez_canal" ∈ (ImpactAssessor.assess_impact
      { disruption_score := some 0.8,
        geographic_scope := some "trade_route_suez_canal",
        urgency_level := some "immediate",
        source_data := some { location := "Suez Canal, Egypt" } }).affected_routes :=
  C9_scenario_c_amended _ { location := "Suez Canal, Egypt" }
    rfl rfl rfl rfl (by with_unfolding_all decide)

set_option maxRecDepth 4000 in
/-- C10: on a non-empty `SupplyChainVectorStore` with 2 documents,
searching with `k = 3` and a threshold at the FAISS padding score makes
the padding row (score `padScore`, index -1) pass the
`idx < len(documents)` filter, and Python's negative indexing turns it
into a spurious duplicate of the last inserted document "B";
`PathwayVectorStore.search_real_time` on the same two documents caps `k`
at the index size and returns no such row. -/
theorem C10_negative_index_padding :
    ((SupplyChainVectorStore.search cEmbed cStoreSC "A" 3 padScore).map
        (fun r => (r.document, r.score)) =
      [("A", 1), ("B", 0), ("B", padScore)]) ∧
    cStoreSC.documents.length = 2 ∧
    ((PathwayVectorStore.search_real_time cEmbed cStoreP "A" 3 padScore).map
        (fun r => (r.document, r.score)) = [("A", 1), ("B", 0)]) := by
  decide

theorem search_real_time_eq (embed : Embed) (s : PathwayVectorStore)
    (query : String) (k : ℕ) (t : ℚ) (q : Vec)
    (hq : embed query = some q) (hne : s.index ≠ []) :
    PathwayVectorStore.search_real_time embed s query k t =
      (buildResults s.documents s.metadata t
        (faissSearch s.index q (min k s.index.length)) 0).getD [] := by
  unfold PathwayVectorStore.search_real_time
  rw [if_neg (by simpa using hne), hq]

theorem sc_search_eq (embed : Embed) (s : SupplyChainVectorStore)
    (query : String) (k : ℕ) (t : ℚ) (q : Vec) (hq : embed query = some q) :
    SupplyChainVectorStore.search embed s query k t =
      (buildResults s.documents s.metadata t (faissSearch s.index q k) 0).getD [] := by
  unfold SupplyChainVectorStore.search
  rw [hq]

/-- C2 counterexample: with `k` above the stored count and the threshold
at the padding score, `SupplyChainVectorStore.search` returns a row whose
score is not the similarity of the query against any stored copy of its
document (it is the FAISS padding value), falsifying the ranking
contract as stated for `SupplyChainVectorStore.search`. -/
theorem C2_ranking_counterexample :
    ∃ r ∈ SupplyChainVectorStore.search cEmbed cStoreSC "A" 3 padScore,
      ∀ i < cStoreSC.index.length,
        cStoreSC.documents.getD i "" = r.document →
        r.score ≠ inner [1, 0, 0] (cStoreSC.index.getD i []) := by
  decide

/-- C2 (amended): the ranking contract holds unconditionally for
`PathwayVectorStore.search_real_time`, and for
`SupplyChainVectorStore.search` whenever `k` does not exceed the stored
document count or the threshold is above the FAISS padding score: the
result list has at most `k` rows, and there is a sorted witness list
`sub` of (score, stored-index) pairs — sorted by `faissLe`, i.e.
descending score with ties in insertion order — such that row-by-row the
results carry exactly those scores, the score equals the inner product
of the query embedding with the stored vector at that index, the
document/metadata are the parallel-list entries at that index, and every
score passes the threshold. -/
theorem C2_ranking_amended (embed : Embed) (sp : PathwayVectorStore)
    (ssc : SupplyChainVectorStore) (query : String) (k : ℕ) (t : ℚ) (q : Vec) :
    (embed query = some q → PathwayVectorStore.WF sp →
      ∃ sub, List.Sorted faissLe sub ∧
        List.Forall₂
          (EntryFromStore q sp.documents sp.metadata sp.index ⟨[], 0, 0, true⟩)
          (PathwayVectorStore.search_real_time embed sp query k t) sub ∧
        (∀ p ∈ sub, t ≤ p.1) ∧
        (PathwayVectorStore.search_real_time embed sp query k t).length ≤ k) ∧
    (embed query = some q → SupplyChainVectorStore.WF ssc →
      (k ≤ ssc.documents.length ∨ padScore < t) →
      ∃ sub, List.Sorted faissLe sub ∧
        List.Forall₂ (EntryFromStore q ssc.documents ssc.metadata ssc.index [])
          (SupplyChainVectorStore.search embed ssc query k t) sub ∧
        (∀ p ∈ sub, t ≤ p.1) ∧
        (SupplyChainVectorStore.search embed ssc query k t).length ≤ k) := by
  constructor
  · intro hq hwf
    by_cases hidx : sp.index.length = 0
    · refine ⟨[], List.sorted_nil, ?_, by simp, ?_⟩ <;>
        simp [PathwayVectorStore.search_real_time, hidx, List.Forall₂]
    · obtain ⟨res, hres, hlen, sub, hsorted, hfa, hsubt⟩ :=
        searchSpec sp.documents sp.metadata ⟨[], 0, 0, true⟩ sp.index q
          (min k sp.index.length) t hwf.1 hwf.2 (Or.inl (min_le_right _ _))
      have hsearch : PathwayVectorStore.search_real_time embed sp query k t = res := by
        rw [search_real_time_eq embed sp query k t q hq
          (by intro hcon; exact hidx (by simp [hcon])), hres]
        rfl
      rw [hsearch]
      exact ⟨sub, hsorted, hfa, hsubt, hlen.trans (min_le_left _ _)⟩
  · intro hq hwf hcond
    have hpad : k ≤ ssc.index.length ∨ padScore < t := by
      rcases hcond with h | h
      · exact Or.inl (hwf.1 ▸ h)
      · exact Or.inr h
    obtain ⟨res, hres, hlen, sub, hsorted, hfa, hsubt⟩ :=
      searchSpec ssc.documents ssc.metadata [] ssc.index q k t hwf.1 hwf.2 hpad
    have hsearch : SupplyChainVectorStore.search embed ssc query k t = res := by
      rw [sc_search_eq embed ssc query k t q hq, hres]
      rfl
    rw [hsearch]
    exact ⟨sub, hsorted, hfa, hsubt, hlen⟩

/-- C2 witness: the ranking contract evaluated on the concrete
two-document stores. -/
theorem C2_ranking_amended_witness :
    (∃ sub, List.Sorted faissLe sub ∧
      List.Forall₂
        (EntryFromStore [1, 0, 0] cStoreP.documents cStoreP.metadata
          cStoreP.index ⟨[], 0, 0, true⟩)
        (PathwayVectorStore.search_real_time cEmbed cStoreP "A" 2 (1 / 2)) sub ∧
      (∀ p ∈ sub, (1 / 2 : ℚ) ≤ p.1) ∧
      (PathwayVectorStore.search_real_time cEmbed cStoreP "A" 2 (1 / 2)).length ≤ 2) ∧
    (∃ sub, List.Sorted faissLe sub ∧
      List.Forall₂
        (EntryFromStore [1, 0, 0] cStoreSC.documents cStoreSC.metadata
          cStoreSC.index [])
        (SupplyChainVectorStore.search cEmbed cStoreSC "A" 2 (1 / 2)) sub ∧
      (∀ p ∈ sub, (1 / 2 : ℚ) ≤ p.1) ∧
      (SupplyChainVectorStore.search cEmbed cStoreSC "A" 2 (1 / 2)).length ≤ 2) :=
  ⟨(C2_ranking_amended cEmbed cStoreP cStoreSC "A" 2 (1 / 2) [1, 0, 0]).1
      (by decide) (by decide),
   (C2_ranking_amended cEmbed cStoreP cStoreSC "A" 2 (1 / 2) [1, 0, 0]).2
      (by decide) (by decide) (Or.inl (by decide))⟩

theorem runAdds_cons (step : σ → String × Option Metadata → σ × ℤ)
    (s : σ) (op : String × Option Metadata) (ops : List (String × Option Metadata)) :
    runAdds step s (op :: ops) =
      ((runAdds step (step s op).1 ops).1,
       (step s op).2 :: (runAdds step (step s op).1 ops).2) := rfl

theorem runAdds_length (step : σ → String × Option Metadata → σ × ℤ) :
    ∀ (ops : List (String × Option Metadata)) (s : σ),
      ((runAdds step s ops).2).length = ops.length := by
  intro ops
  induction ops with
  | nil => intro s; rfl
  | cons op ops ih => intro s; rw [runAdds_cons]; simp [ih]

theorem runAdds_ge (step : σ → String × Option Metadata → σ × ℤ)
    (count : σ → ℕ)
    (H1 : ∀ s op, (step s op).2 = -1 ∨ (step s op).2 = (count s : ℤ))
    (H2 : ∀ s op, count s ≤ count (step s op).1) :
    ∀ (ops : List (String × Option Metadata)) (s : σ) (id : ℤ),
      id ∈ (runAdds step s ops).2 → id ≠ -1 → (count s : ℤ) ≤ id := by
  intro ops
  induction ops with
  | nil => intro s id h; simp [runAdds] at h
  | cons op ops ih =>
    intro s id h hne
    rw [runAdds_cons] at h
    rcases List.mem_cons.mp h with h | h
    · rcases H1 s op with h1 | h1
      · rw [h] at hne; exact absurd h1 hne
      · rw [h, h1]
    · calc ((count s : ℤ)) ≤ (count (step s op).1 : ℤ) := by exact_mod_cast H2 s op
        _ ≤ id := ih (step s op).1 id h hne

theorem runAdds_id_eq (step : σ → String × Option Metadata → σ × ℤ)
    (count : σ → ℕ)
    (H1 : ∀ s op, (step s op).2 = -1 ∨ (step s op).2 = (count s : ℤ)) :
    ∀ (ops : List (String × Option Metadata)) (s : σ) (i : ℕ),
      i < ops.length →
      ((runAdds step s ops).2).getD i 0 ≠ -1 →
      ((runAdds step s ops).2).getD i 0 =
        (count (runAdds step s (ops.take i)).1 : ℤ) := by
  intro ops
  induction ops with
  | nil => intro s i hi; simp at hi
  | cons op ops ih =>
    intro s i hi hne
    rw [runAdds_cons] at hne ⊢
    cases i with
    | zero =>
      simp only [List.getD_cons_zero] at hne ⊢
      rcases H1 s op with h1 | h1
      · exact absurd h1 hne
      · rw [h1]; rfl
    | succ i' =>
      simp only [List.getD_cons_succ] at hne ⊢
      rw [List.take_succ_cons, runAdds_cons]
      exact ih (step s op).1 i' (by simpa using hi) hne

theorem runAdds_strict_mono (step : σ → String × Option Metadata → σ × ℤ)
    (count : σ → ℕ)
    (H1 : ∀ s op, (step s op).2 = -1 ∨ (step s op).2 = (count s : ℤ))
    (H2 : ∀ s op, count s ≤ count (step s op).1)
    (H3 : ∀ s op, (step s op).2 ≠ -1 → count s < count (step s op).1) :
    ∀ (ops : List (String × Option Metadata)) (s : σ) (i j : ℕ),
      i < j → j < ops.length →
      ((runAdds step s ops).2).getD i 0 ≠ -1 →
      ((runAdds step s ops).2).getD j 0 ≠ -1 →
      ((runAdds step s ops).2).getD i 0 < ((runAdds step s ops).2).getD j 0 := by
  intro ops
  induction ops with
  | nil => intro s i j hij hj; simp at hj
  | cons op ops ih =>
    intro s i j hij hj hi hj'
    rw [runAdds_cons] at hi hj' ⊢
    obtain ⟨j', rfl⟩ : ∃ j', j = j' + 1 := ⟨j - 1, by omega⟩
    cases i with
    | zero =>
      simp only [List.getD_cons_zero, List.getD_cons_succ] at hi hj' ⊢
      rcases H1 s op with h1 | h1
      · exact absurd h1 hi
      · rw [h1]
        have hjlen : j' < ((runAdds step (step s op).1 ops).2).length := by
          rw [runAdds_length]
          simpa using hj
        have hmem : ((runAdds step (step s op).1 ops).2).getD j' 0 ∈
            (runAdds step (step s op).1 ops).2 := by
          rw [List.getD_eq_getElem _ _ hjlen]
          exact List.getElem_mem hjlen
        have hge := runAdds_ge step count H1 H2 ops (step s op).1 _ hmem hj'
        have hsne : (step s op).2 ≠ -1 := by rw [h1]; omega
        have hlt := H3 s op hsne
        calc ((count s : ℤ)) < (count (step s op).1 : ℤ) := by exact_mod_cast hlt
          _ ≤ _ := hge
    | succ i' =>
      simp only [List.getD_cons_succ] at hi hj' ⊢
      exact ih (step s op).1 i' j' (by omega) (by simpa using hj) hi hj'

theorem runAdds_fail_iff (step : σ → String × Option Metadata → σ × ℤ)
    (failp : String × Option Metadata → Prop)
    (H : ∀ s op, ((step s op).2 = -1 ↔ failp op)) :
    ∀ (ops : List (String × Option Metadata)) (s : σ) (i : ℕ),
      i < ops.length →
      (((runAdds step s ops).2).getD i 0 = -1 ↔
        failp (ops.getD i ("", none))) := by
  intro ops
  induction ops with
  | nil => intro s i hi; simp at hi
  | cons op ops ih =>
    intro s i hi
    rw [runAdds_cons]
    cases i with
    | zero => simpa using H s op
    | succ i' =>
      simp only [List.getD_cons_succ]
      exact ih (step s op).1 i' (by simpa using hi)

/-- C6: monotonic insert ids for both stores, over any sequence of insert
calls within one process lifetime: every successful id is the number of
documents stored before that call, successful ids are strictly
increasing across the sequence, and a call returns the sentinel -1
exactly when embedding its text fails. -/
theorem C6_monotonic_ids (embed : Embed) (now : ℕ)
    (sp : PathwayVectorStore) (ssc : SupplyChainVectorStore)
    (ops : List (String × Option Metadata)) :
    ((∀ i j : ℕ, i < j → j < ops.length →
        ((runAdds (pathwayStep embed now) sp ops).2).getD i 0 ≠ -1 →
        ((runAdds (pathwayStep embed now) sp ops).2).getD j 0 ≠ -1 →
        ((runAdds (pathwayStep embed now) sp ops).2).getD i 0 <
          ((runAdds (pathwayStep embed now) sp ops).2).getD j 0) ∧
      (∀ i : ℕ, i < ops.length →
        ((runAdds (pathwayStep embed now) sp ops).2).getD i 0 ≠ -1 →
        ((runAdds (pathwayStep embed now) sp ops).2).getD i 0 =
          ((runAdds (pathwayStep embed now) sp (ops.take i)).1.documents.length : ℤ)) ∧
      (∀ i : ℕ, i < ops.length →
        (((runAdds (pathwayStep embed now) sp ops).2).getD i 0 = -1 ↔
          embed (ops.getD i ("", none)).1 = none))) ∧
    ((∀ i j : ℕ, i < j → j < ops.length →
        ((runAdds (scStep embed) ssc ops).2).getD i 0 ≠ -1 →
        ((runAdds (scStep embed) ssc ops).2).getD j 0 ≠ -1 →
        ((runAdds (scStep embed) ssc ops).2).getD i 0 <
          ((runAdds (scStep embed) ssc ops).2).getD j 0) ∧
      (∀ i : ℕ, i < ops.length →
        ((runAdds (scStep embed) ssc ops).2).getD i 0 ≠ -1 →
        ((runAdds (scStep embed) ssc ops).2).getD i 0 =
          ((runAdds (scStep embed) ssc (ops.take i)).1.documents.length : ℤ)) ∧
      (∀ i : ℕ, i < ops.length →
        (((runAdds (scStep embed) ssc ops).2).getD i 0 = -1 ↔
          embed (ops.getD i ("", none)).1 = none))) := by
  have H1p : ∀ (st : PathwayVectorStore) op, ((pathwayStep embed now) st op).2 = -1 ∨
      ((pathwayStep embed now) st op).2 = (st.documents.length : ℤ) := by
    intro st op
    cases h : embed op.1 <;>
      simp [pathwayStep, PathwayVectorStore.add_document_streaming, h]
  have H2p : ∀ (st : PathwayVectorStore) op,
      st.documents.length ≤ ((pathwayStep embed now) st op).1.documents.length := by
    intro st op
    cases h : embed op.1 <;>
      simp [pathwayStep, PathwayVectorStore.add_document_streaming, h]
  have H3p : ∀ (st : PathwayVectorStore) op, ((pathwayStep embed now) st op).2 ≠ -1 →
      st.documents.length < ((pathwayStep embed now) st op).1.documents.length := by
    intro st op hne
    cases h : embed op.1
    · exact absurd (by simp [pathwayStep, PathwayVectorStore.add_document_streaming, h]) hne
    · simp [pathwayStep, PathwayVectorStore.add_document_streaming, h]
  have HFp : ∀ (st : PathwayVectorStore) op,
      (((pathwayStep embed now) st op).2 = -1 ↔ embed op.1 = none) := by
    intro st op
    cases h : embed op.1 <;>
      simp [pathwayStep, PathwayVectorStore.add_document_streaming, h] <;> omega
  have H1s : ∀ (st : SupplyChainVectorStore) op, ((scStep embed) st op).2 = -1 ∨
      ((scStep embed) st op).2 = (st.documents.length : ℤ) := by
    intro st op
    cases h : embed op.1 <;>
      simp [scStep, SupplyChainVectorStore.add_document, h]
  have H2s : ∀ (st : SupplyChainVectorStore) op,
      st.documents.length ≤ ((scStep embed) st op).1.documents.length := by
    intro st op
    cases h : embed op.1 <;>
      simp [scStep, SupplyChainVectorStore.add_document, h]
  have H3s : ∀ (st : SupplyChainVectorStore) op, ((scStep embed) st op).2 ≠ -1 →
      st.documents.length < ((scStep embed) st op).1.documents.length := by
    intro st op hne
    cases h : embed op.1
    · exact absurd (by simp [scStep, SupplyChainVectorStore.add_document, h]) hne
    · simp [scStep, SupplyChainVectorStore.add_document, h]
  have HFs : ∀ (st : SupplyChainVectorStore) op,
      (((scStep embed) st op).2 = -1 ↔ embed op.1 = none) := by
    intro st op
    cases h : embed op.1 <;>
      simp [scStep, SupplyChainVectorStore.add_document, h] <;> omega
  exact
    ⟨⟨fun i j hij hj hi hj' =>
        runAdds_strict_mono _ _ H1p H2p H3p ops sp i j hij hj hi hj',
      fun i hi hne => runAdds_id_eq _ _ H1p ops sp i hi hne,
      fun i hi => runAdds_fail_iff _ _ HFp ops sp i hi⟩,
     ⟨fun i j hij hj hi hj' =>
        runAdds_strict_mono _ _ H1s H2s H3s ops ssc i j hij hj hi hj',
      fun i hi hne => runAdds_id_eq _ _ H1s ops ssc i hi hne,
      fun i hi => runAdds_fail_iff _ _ HFs ops ssc i hi⟩⟩

/-- C6 witness: a three-call sequence on the concrete empty stores whose
middle call fails to embed produces ids [0, -1, 1] on the pathway store
(and [0, -1, 1] on the supply-chain store): the first successful id is
below the last, equals the prior document count, and position 1 is the
sentinel -1 because embedding "" fails. -/
theorem C6_monotonic_ids_witness :
    ((runAdds (pathwayStep cEmbed 7) cEmptyP
        [("A", none), ("", none), ("B", none)]).2).getD 0 0 <
      ((runAdds (pathwayStep cEmbed 7) cEmptyP
        [("A", none), ("", none), ("B", none)]).2).getD 2 0 ∧
    ((runAdds (scStep cEmbed) cEmptySC
        [("A", none), ("", none), ("B", none)]).2).getD 0 0 <
      ((runAdds (scStep cEmbed) cEmptySC
        [("A", none), ("", none), ("B", none)]).2).getD 2 0 ∧
    (((runAdds (pathwayStep cEmbed 7) cEmptyP
        [("A", none), ("", none), ("B", none)]).2).getD 1 0 = -1 ↔
      cEmbed (([("A", none), ("", none), ("B", none)] :
        List (String × Option Metadata)).getD 1 ("", none)).1 = none) :=
  ⟨(C6_monotonic_ids cEmbed 7 cEmptyP cEmptySC
      [("A", none), ("", none), ("B", none)]).1.1 0 2
      (by decide) (by decide) (by decide) (by decide),
   (C6_monotonic_ids cEmbed 7 cEmptyP cEmptySC
      [("A", none), ("", none), ("B", none)]).2.1 0 2
      (by decide) (by decide) (by decide) (by decide),
   (C6_monotonic_ids cEmbed 7 cEmptyP cEmptySC
      [("A", none), ("", none), ("B", none)]).1.2.2 1 (by decide)⟩

/-- C1: read-your-writes / immediate visibility. If
`add_document_streaming(T, m)` succeeds (it then returns the non-negative
id `len(documents)`), a `search_real_time(T, k, threshold)` issued
immediately afterwards with `k ≥ 1` and `threshold ≤ 1` returns a list
whose top entry is exactly `T` with score exactly 1 (the rational
idealization of ≈1.0), and in particular the list contains `T` — with no
commit or rebuild step between insert and search. Hypotheses on the
embedding provider: `T`'s embedding is a unit vector, stored vectors
score at most 1 against it (Cauchy–Schwarz for the unit-normalized
store), and only stored copies of `T` itself score exactly 1 (the spec's
"sufficiently distinct" proviso; identical text embeds identically). -/
theorem C1_immediate_visibility (embed : Embed) (now : ℕ)
    (s : PathwayVectorStore) (T : String) (m : Option Metadata)
    (k : ℕ) (t : ℚ) (v : Vec)
    (hembed : embed T = some v)
    (hunit : inner v v = 1)
    (hwf : PathwayVectorStore.WF s)
    (hbound : ∀ j, j < s.index.length → inner v (s.index.getD j []) ≤ 1)
    (hdist : ∀ j, j < s.index.length →
      inner v (s.index.getD j []) = 1 → s.documents.getD j "" = T)
    (hk : 1 ≤ k) (ht : t ≤ 1) :
    0 ≤ (PathwayVectorStore.add_document_streaming embed now s T m).2 ∧
    ∃ r tl,
      PathwayVectorStore.search_real_time embed
          (PathwayVectorStore.add_document_streaming embed now s T m).1 T k t
        = r :: tl ∧
      r.document = T ∧ r.score = 1 ∧
      T ∈ (PathwayVectorStore.search_real_time embed
          (PathwayVectorStore.add_document_streaming embed now s T m).1 T k t).map
        (fun x => x.document) := by
  have hadd : PathwayVectorStore.add_document_streaming embed now s T m =
      ({ dimension := s.dimension
         index := s.index ++ [v]
         documents := s.documents ++ [T]
         metadata := s.metadata ++ [⟨m.getD [], now, s.update_counter, true⟩]
         update_counter := s.update_counter + 1
         last_update_time := now }, (s.documents.length : ℤ)) := by
    simp [PathwayVectorStore.add_document_streaming, hembed]
  rw [hadd]
  refine ⟨Int.natCast_nonneg _, ?_⟩
  -- abbreviations for the post-insert store components
  have hdlen : s.documents.length = s.index.length := hwf.1
  have hmlen : s.metadata.length = s.index.length := hwf.2
  -- the scored rows of the post-insert index
  have hSAlen : (scoreAll v (s.index ++ [v]) 0).length = s.index.length + 1 := by
    rw [scoreAll_length]; simp
  have hSLlen : (List.insertionSort faissLe (scoreAll v (s.index ++ [v]) 0)).length
      = s.index.length + 1 := by
    rw [(List.perm_insertionSort faissLe _).length_eq, hSAlen]
  have hSLne : List.insertionSort faissLe (scoreAll v (s.index ++ [v]) 0) ≠ [] := by
    intro hcon
    rw [hcon] at hSLlen
    simp at hSLlen
  obtain ⟨p₀, rest, hcons⟩ := List.exists_cons_of_ne_nil hSLne
  have hp₀SA : p₀ ∈ scoreAll v (s.index ++ [v]) 0 :=
    (List.perm_insertionSort faissLe _).mem_iff.mp
      (hcons ▸ List.mem_cons_self _ _)
  obtain ⟨j, hj, hpj1, hpj2⟩ := mem_scoreAll hp₀SA
  have hj' : j < s.index.length + 1 := by simpa using hj
  have hp2j : p₀.2 = (j : ℤ) := by simpa using hpj2
  -- every row scores at most 1 against v
  have hle1 : ∀ i, i < s.index.length + 1 →
      inner v ((s.index ++ [v]).getD i []) ≤ 1 := by
    intro i hi
    rcases Nat.lt_or_ge i s.index.length with hin | hin
    · rw [List.getD_append _ _ _ _ hin]
      exact hbound i hin
    · have hieq : i = s.index.length := by omega
      subst hieq
      rw [getD_concat]
      exact le_of_eq hunit
  -- the fresh row (1, n) is among the sorted rows
  have hvn : ((1 : ℚ), (s.index.length : ℤ)) ∈
      List.insertionSort faissLe (scoreAll v (s.index ++ [v]) 0) := by
    apply (List.perm_insertionSort faissLe _).mem_iff.mpr
    have hmem := scoreAll_mem v (s.index ++ [v]) 0 s.index.length (by simp)
    rw [getD_concat] at hmem
    rw [hunit] at hmem
    simpa using hmem
  have hsorted : List.Sorted faissLe
      (List.insertionSort faissLe (scoreAll v (s.index ++ [v]) 0)) :=
    List.sorted_insertionSort faissLe _
  -- the head row has score exactly 1 and index at most n
  have hp₀max : p₀.1 = 1 ∧ p₀.2 ≤ (s.index.length : ℤ) := by
    rcases List.mem_cons.mp (hcons ▸ hvn) with heq | hmem
    · exact ⟨by rw [← heq], by rw [← heq]⟩
    · have hrel : faissLe p₀ (1, (s.index.length : ℤ)) :=
        List.rel_of_sorted_cons (hcons ▸ hsorted) _ hmem
      have hp1le : p₀.1 ≤ 1 := by
        rw [hpj1]
        exact hle1 j hj'
      rcases hrel with h | ⟨h1, h2⟩
      · exact absurd h (not_lt.mpr hp1le)
      · exact ⟨h1, h2⟩
  have hjn : j ≤ s.index.length := by omega
  -- the head row's document is T
  have hdoc : (s.documents ++ [T]).getD j "" = T := by
    rcases Nat.lt_or_ge j s.index.length with hlt | hge
    · rw [List.getD_append _ _ _ _ (by omega : j < s.documents.length)]
      apply hdist j hlt
      have h1 := hp₀max.1
      rw [hpj1, List.getD_append _ _ _ _ hlt] at h1
      exact h1
    · have hjeq : j = s.index.length := by omega
      subst hjeq
      rw [← hdlen, getD_concat]
  -- evaluate the search on the post-insert store
  rw [search_real_time_eq embed _ T k t v hembed (by simp)]
  have hkk1 : 1 ≤ min k ((s.index ++ [v]).length) := by
    apply le_min hk
    simp
  rw [faissSearch_top _ _ _ (min_le_right _ _)]
  -- after the insert the store's index is s.index ++ [v]
  obtain ⟨kk', hkk'⟩ : ∃ kk',
      min k ((s.index ++ [v]).length) = kk' + 1 :=
    ⟨min k ((s.index ++ [v]).length) - 1, by omega⟩
  rw [hkk', hcons, List.take_succ_cons]
  -- the head row passes the filter and resolves to document T
  have hcond : t ≤ p₀.1 ∧ p₀.2 < ((s.documents ++ [T]).length : ℤ) := by
    constructor
    · rw [hp₀max.1]; exact ht
    · simp only [List.length_append, List.length_singleton]
      omega
  have h0' : 0 ≤ p₀.2 := by omega
  have hto : p₀.2.toNat = j := by omega
  have hpd : pyGet (s.documents ++ [T]) p₀.2 = some T := by
    rw [pyGet_eq_getD _ _ "" h0' (by simp; omega), hto, hdoc]
  have hpm : pyGet (s.metadata ++ [(⟨m.getD [], now, s.update_counter, true⟩ : StoredMeta)]) p₀.2 =
      some ((s.metadata ++ [(⟨m.getD [], now, s.update_counter, true⟩ : StoredMeta)]).getD
        p₀.2.toNat ⟨[], 0, 0, true⟩) :=
    pyGet_eq_getD _ _ _ h0' (by simp; omega)
  -- the remaining rows build successfully
  have hok' : ∀ p ∈ rest.take kk', t ≤ p.1 →
      0 ≤ p.2 ∧ p.2.toNat < (s.documents ++ [T]).length := by
    intro p hp _
    have hpSL : p ∈ List.insertionSort faissLe (scoreAll v (s.index ++ [v]) 0) :=
      hcons ▸ List.mem_cons_of_mem _ (List.mem_of_mem_take hp)
    have hpSA : p ∈ scoreAll v (s.index ++ [v]) 0 :=
      (List.perm_insertionSort faissLe _).mem_iff.mp hpSL
    obtain ⟨j2, hj2, _, hj2e⟩ := mem_scoreAll hpSA
    have : p.2 = (j2 : ℤ) := by simpa using hj2e
    have hj2' : j2 < s.index.length + 1 := by simpa using hj2
    constructor
    · omega
    · simp only [List.length_append, List.length_singleton]
      omega
  obtain ⟨tail, htail, _⟩ := buildResults_spec (s.documents ++ [T])
    (s.metadata ++ [(⟨m.getD [], now, s.update_counter, true⟩ : StoredMeta)])
    (⟨[], 0, 0, true⟩ : StoredMeta) t (by simp; omega) (rest.take kk') 1 hok'
  -- assemble the final result list
  refine ⟨(⟨T, (s.metadata ++ [(⟨m.getD [], now, s.update_counter, true⟩ : StoredMeta)]).getD
    p₀.2.toNat ⟨[], 0, 0, true⟩, p₀.1, 1⟩ : SearchResult StoredMeta), tail,
    ?_, rfl, hp₀max.1, ?_⟩
  · simp only [buildResults, if_pos hcond, hpd, hpm, htail, Option.map_some',
      Option.getD_some]
  · simp only [buildResults, if_pos hcond, hpd, hpm, htail, Option.map_some',
      Option.getD_some, List.map_cons]
    exact List.mem_cons_self _ _

/-- C1 witness: inserting "C" into the concrete empty store and
immediately searching for "C" with k = 1, threshold = 1 returns "C" on
top with score 1. -/
theorem C1_immediate_visibility_witness :
    0 ≤ (PathwayVectorStore.add_document_streaming cEmbed 9 cEmptyP "C" none).2 ∧
    ∃ r tl,
      PathwayVectorStore.search_real_time cEmbed
          (PathwayVectorStore.add_document_streaming cEmbed 9 cEmptyP "C" none).1
          "C" 1 1
        = r :: tl ∧
      r.document = "C" ∧ r.score = 1 ∧
      "C" ∈ (PathwayVectorStore.search_real_time cEmbed
          (PathwayVectorStore.add_document_streaming cEmbed 9 cEmptyP "C" none).1
          "C" 1 1).map (fun x => x.document) :=
  C1_immediate_visibility cEmbed 9 cEmptyP "C" none 1 1 [0, 0, 1]
    (by decide) (by decide) (by decide) (by decide) (by decide)
    (by decide) (by decide)

end SupplyChainRAG
